import Mathlib

/-!
Shallow embedding of `bseclib.py` (BSEC-Conduit, BSECLibrary 0.1.4) and
verification of its specification.

Python floats are modelled as `Rat` (every comparison the code performs is
between decimal literals that CPython represents exactly enough for the
comparisons to agree with exact rational arithmetic on the inputs considered),
machine integers as `Int`/`Nat`, file contents as `List Nat` (bytes) or
`String` (text), and raised exceptions as explicit result flags or `Except`.
External effects (the md5 function, the compiler, `shutil.copy`'s return
value, `os.listdir`, ...) are parameters of the embedded functions.
-/

namespace BSECLib

/-! ## Device parameter validation — `BSECLibrary.__init__`, bseclib.py lines 39-68

Python chained comparisons `a OP1 b OP2 c` mean `a OP1 b and b OP2 c`;
the two range checks below are transcribed with exactly that reading. -/

structure DeviceParams where
  i2c_address : Int
  temp_offset : Rat
  sample_rate : Int
  voltage : Rat
  retain_state : Int
  deriving DecidableEq

/-- Line 40: `if 119 > i2c_address < 118:` (raise when true). -/
def i2cCheckFails (a : Int) : Bool :=
  decide (119 > a) && decide (a < 118)

/-- Line 46: `if 10.0 > temp_offset < -10.0:` (raise when true). -/
def tempCheckFails (t : Rat) : Bool :=
  decide ((10.0 : Rat) > t) && decide (t < (-10.0 : Rat))

/-- Line 52: `if sample_rate != 3 and sample_rate != 300:`. -/
def sampleRateCheckFails (s : Int) : Bool :=
  decide (s ≠ 3) && decide (s ≠ 300)

/-- Line 58: `if voltage != 3.3 and voltage != 1.8:`. -/
def voltageCheckFails (v : Rat) : Bool :=
  decide (v ≠ (3.3 : Rat)) && decide (v ≠ (1.8 : Rat))

/-- Line 64: `if retain_state != 4 and retain_state != 28:`. -/
def retainStateCheckFails (r : Int) : Bool :=
  decide (r ≠ 4) && decide (r ≠ 28)

/-- `True` iff construction gets past all five field checks of
`BSECLibrary.__init__` without raising `BSECLibraryError`. -/
def validateParams (p : DeviceParams) : Bool :=
  !(i2cCheckFails p.i2c_address) && !(tempCheckFails p.temp_offset) &&
  !(sampleRateCheckFails p.sample_rate) && !(voltageCheckFails p.voltage) &&
  !(retainStateCheckFails p.retain_state)

/-- **C1** — The validation in `__init__` accepts `i2c_address = 120`
(outside {0x76, 0x77} = {118, 119}) and `temp_offset = 11.0` (outside
[-10.0, 10.0]) without raising, because the chained comparisons
`119 > i2c_address < 118` and `10.0 > temp_offset < -10.0` only fire for
values below 118 resp. below -10.0; `-11.0` happens to be rejected.  This
contradicts the code's own error messages ("must be one of 0x76 or 0x77",
"must be in the range of 10.0 and -10.0") and the argument checks of the
embedded C program, so the claim is right and the code has a slip. -/
theorem c1_validation_accepts_out_of_range :
    validateParams ⟨120, 0, 3, 3.3, 4⟩ = true ∧
    validateParams ⟨118, 11, 3, 3.3, 4⟩ = true ∧
    validateParams ⟨118, -11, 3, 3.3, 4⟩ = false := by
  norm_num [validateParams, i2cCheckFails, tempCheckFails, sampleRateCheckFails,
    voltageCheckFails, retainStateCheckFails]

/-! ## Output streaming — `BSECLibrary.output`, bseclib.py lines 136-151

A line of child stdout is a JSON object; `json.loads` turns it into a dict.
The embedded C program prints every field with `printf("... \"%d\"")` or
`"%.2f"` wrapped in quotes, so every value on the wire is a JSON string.
We model parsed JSON values and the dict produced by `json.loads`. -/

inductive JVal where
  | str (s : String)
  | num (q : Rat)
  deriving DecidableEq

abbrev JObj := List (String × JVal)

/-- `data['Status']`-style key lookup in a parsed JSON object. -/
def jLookup (o : JObj) (k : String) : Option JVal :=
  (o.find? (fun kv => kv.1 == k)).map (fun kv => kv.2)

/-- Negation of the line-141 test `data['Status'] != '0'` (the only branch
condition of the loop body). -/
def statusZero (o : JObj) : Bool :=
  jLookup o "Status" == some (JVal.str "0")

inductive StreamEnd where
  /-- the iterator over stdout lines was exhausted (line 148 warning) -/
  | exhausted
  /-- `BSECLibraryError` raised on a non-zero status (line 145) -/
  | raised
  deriving DecidableEq

/-- The generator loop of `output` (lines 139-148): for each parsed line,
raise without yielding when `data['Status'] != '0'`, else yield `data`
itself, unconverted. Modelled as the list of yielded records plus how the
stream ended. -/
def outputLoop : List JObj → List JObj × StreamEnd
  | [] => ([], .exhausted)
  | o :: rest =>
    if !(statusZero o) then ([], .raised)
    else
      let (ys, e) := outputLoop rest
      (o :: ys, e)

/-- One stdout line as emitted by `output_ready` in the embedded C program:
all seven fields are string-encoded (`printf` wraps `%d`/`%.2f` in quotes). -/
def wireLine (acc iaq temp hum pres gas status : String) : JObj :=
  [("IAQ_Accuracy", JVal.str acc), ("IAQ", JVal.str iaq),
   ("Temperature", JVal.str temp), ("Humidity", JVal.str hum),
   ("Pressure", JVal.str pres), ("Gas", JVal.str gas),
   ("Status", JVal.str status)]

def jvalIsStr : JVal → Bool
  | .str _ => true
  | .num _ => false

def jvalIsNum : JVal → Bool
  | .num _ => true
  | .str _ => false

def sampleWire : JObj := wireLine "3" "25.00" "20.00" "40.00" "1000.00" "50000" "0"

lemma outputLoop_eq_takeWhile (lines : List JObj) :
    outputLoop lines =
      (lines.takeWhile statusZero,
       if lines.all statusZero then StreamEnd.exhausted else StreamEnd.raised) := by
  induction lines with
  | nil => rfl
  | cons o rest ih =>
    by_cases h : statusZero o <;>
      simp [outputLoop, List.takeWhile_cons, h, ih]

/-- **C2** — `output()` yields exactly the records of the longest prefix of
lines whose status field is the string "0"; the stream ends with a raise
iff some line has a non-zero status (the first such line is not yielded),
and a child emitting status 0 three times then status 1 yields exactly
three records and raises on the fourth line. -/
theorem c2_output_yields_until_first_bad_status :
    (∀ lines : List JObj,
        outputLoop lines =
          (lines.takeWhile statusZero,
           if lines.all statusZero then StreamEnd.exhausted else StreamEnd.raised)) ∧
    (outputLoop [sampleWire, sampleWire, sampleWire,
        wireLine "3" "25.00" "20.00" "40.00" "1000.00" "50000" "1"] =
      ([sampleWire, sampleWire, sampleWire], StreamEnd.raised)) :=
  ⟨outputLoop_eq_takeWhile, by decide⟩

/-- **C8 counterexample** — the record yielded by `output()` for a wire line
still holds the raw string-encoded fields: its `IAQ_Accuracy`, `IAQ` and
`Status` entries are JSON strings, not numbers, refuting the claim that
yielded records carry typed integer/float fields. -/
theorem c8_counterexample_string_fields :
    (outputLoop [sampleWire]).1 = [sampleWire] ∧
    (jLookup sampleWire "IAQ_Accuracy").map jvalIsNum = some false ∧
    (jLookup sampleWire "IAQ").map jvalIsNum = some false ∧
    (jLookup sampleWire "Status").map jvalIsNum = some false := by
  decide

/-- **C8 amended** — every record yielded by `output()` is one of the parsed
JSON objects of the input lines, unmodified (the yielded list is a prefix of
the parsed lines), its status field is the string "0", and a wire-protocol
line parses to an object all of whose fields are still string-encoded. -/
theorem c8_yields_raw_parsed_records :
    ∀ (lines : List JObj) (acc iaq temp hum pres gas status : String),
      (outputLoop lines).1.isPrefixOf lines = true ∧
      (outputLoop lines).1.all statusZero = true ∧
      (wireLine acc iaq temp hum pres gas status).all
        (fun kv => jvalIsStr kv.2) = true := by
  intro lines acc iaq temp hum pres gas status
  refine ⟨?_, ?_, by simp [wireLine, jvalIsStr]⟩
  · rw [outputLoop_eq_takeWhile]
    exact List.isPrefixOf_iff_prefix.mpr (List.takeWhile_prefix _)
  · rw [outputLoop_eq_takeWhile]
    simp only [List.all_eq_true]
    intro o ho
    exact List.mem_takeWhile_imp ho

/-! ## Build cache — `BSECLibrary._get_exec`, bseclib.py lines 209-270

The md5 function is a parameter `hash : List Nat → String` (its hex digest
of a byte string); the compiler is modelled by the bytes `ccOut` it writes
to `exec_dst` and its exit code `ccRc`. The `arch()` helper (verified
separately below) only selects include/library paths inside the build
command and does not affect the caching behaviour modelled here. -/

structure BuildFS where
  /-- contents of `{base_dir}/bsec-library` if the file exists -/
  execBytes : Option (List Nat)
  /-- text contents of `{base_dir}/bsec-library.md5` if the file exists -/
  sidecar : Option String
  /-- whether `{src_dir}/bsec-library.c` exists -/
  srcFileExists : Bool
  deriving DecidableEq

structure BuildResult where
  fs : BuildFS
  /-- number of compiler invocations performed -/
  ccRuns : Nat
  /-- whether `BSECLibraryError` was raised -/
  raised : Bool
  deriving DecidableEq

/-- Lines 210-270 of `_get_exec`: skip the build iff both the executable and
its `.md5` sidecar exist and the sidecar's stored hash (line 216, `.strip()`)
equals the freshly computed hash of the executable bytes (line 214,
`.strip()`); otherwise write the glue source if missing (lines 226-229), run
the compiler once (line 253), raise on a non-zero exit (lines 256-260), and
on success persist the new executable's hash to the sidecar (lines 264-268). -/
def getExec (hash : List Nat → String) (ccOut : List Nat) (ccRc : Int)
    (fs : BuildFS) : BuildResult :=
  let buildFlag :=
    match fs.execBytes, fs.sidecar with
    | some b, some t => !(t.trim == (hash b).trim)
    | _, _ => true
  if buildFlag then
    let fs1 : BuildFS := { fs with srcFileExists := true }
    if ccRc ≠ 0 then
      { fs := fs1, ccRuns := 1, raised := true }
    else
      let fs2 : BuildFS := { fs1 with execBytes := some ccOut }
      { fs := { fs2 with sidecar := some (hash ccOut) }, ccRuns := 1, raised := false }
  else
    { fs := fs, ccRuns := 0, raised := false }

/-- The cache-hit condition of lines 212-217. -/
def cacheHit (hash : List Nat → String) (fs : BuildFS) : Bool :=
  match fs.execBytes, fs.sidecar with
  | some b, some t => t.trim == (hash b).trim
  | _, _ => false

/-- **C3** — With a successfully exiting compiler, `_get_exec` performs zero
compiler invocations and leaves the filesystem untouched exactly when the
executable and its sidecar both exist and the sidecar's stored hash equals
the freshly computed hash of the executable bytes; in every other case it
performs exactly one compiler invocation and rewrites the sidecar to the
hash of the newly built executable. -/
theorem c3_build_cache_idempotent :
    ∀ (hash : List Nat → String) (ccOut : List Nat) (fs : BuildFS),
      getExec hash ccOut 0 fs =
        if cacheHit hash fs then ⟨fs, 0, false⟩
        else ⟨⟨some ccOut, some (hash ccOut), true⟩, 1, false⟩ := by
  intro hash ccOut fs
  rcases fs with ⟨eb, sc, srcf⟩
  rcases eb with _ | b <;> rcases sc with _ | t
  · simp [getExec, cacheHit]
  · simp [getExec, cacheHit]
  · simp [getExec, cacheHit]
  · by_cases h : t.trim == (hash b).trim <;> simp [getExec, cacheHit, h]

/-! ## Config resolver — `BSECLibrary._get_config`, bseclib.py lines 272-301 -/

/-- The static eight-entry table of lines 276-285, keyed by md5 hex digest;
only the `'string'` field is consulted by the code, so only it is kept. -/
def configHashTable : List (String × String) :=
  [("305c5398b0359f7956584a7a52bb48ea", "generic_18v_300s_28d"),
   ("eecd6e4000afa21901bb28e182a75c6e", "generic_18v_300s_4d"),
   ("19389190311bbdbf3432791eb9a258b7", "generic_18v_3s_28d"),
   ("0505f6120e216f19987b59dc011fc609", "generic_18v_3s_4d"),
   ("344ff63b9f11c0427d7d205242ffd606", "generic_33v_300s_28d"),
   ("16851fcb6becb9b814263deb3d31623b", "generic_33v_300s_4d"),
   ("a401d7712179350a7b6ff6fc035d49c2", "generic_33v_3s_28d"),
   ("1107f7ce9fcb414de64e899babc1a1ee", "generic_33v_3s_4d")]

structure ConfigResult where
  /-- contents of `{base_dir}/bsec-library.config` after the call -/
  dst : Option (List Nat)
  /-- number of `shutil.copy` operations performed -/
  copies : Nat
  /-- whether `BSECLibraryError` was raised (line 298) -/
  raised : Bool
  /-- the path returned (line 301) -/
  ret : String
  deriving DecidableEq

/-- Lines 275-301 of `_get_config`. `hash` models md5 hex digest;
`variantOf config` models the bytes of
`{src_dir}/config/{config}/bsec_iaq.config`; `copyRet` models the path
returned by `shutil.copy` (compared against `os.path.abspath(config_dst)`
at line 296; `base_dir` is absolute after `__init__`, so `abspath` is the
identity on `config_dst`). -/
def getConfig (hash : List Nat → String) (variantOf : String → List Nat)
    (copyRet : String) (baseDir : String) (config : String)
    (dst0 : Option (List Nat)) : ConfigResult :=
  let configDst := baseDir ++ "/bsec-library.config"
  -- lines 286-290: md5 of the existing destination, `None` if missing
  let h : Option String := dst0.map (fun b => (hash b).toLower)
  -- line 292: `hash in config_hash_table and config_hash_table[hash]['string'] == config`
  let reuse : Bool :=
    match h with
    | some hs => (configHashTable.lookup hs).any (fun s => s == config)
    | none => false
  if reuse then
    ⟨dst0, 0, false, configDst⟩
  else
    -- line 295: copy the vendor variant over the destination
    let dst1 := some (variantOf config)
    if copyRet ≠ configDst then ⟨dst1, 1, true, configDst⟩
    else ⟨dst1, 1, false, configDst⟩

/-- **C4** — `_get_config` reuses the destination file untouched (zero
copies) iff it exists, its content hash is one of the eight table entries
and that entry's identity equals the requested `config_string`; otherwise
exactly one copy occurs from the vendor variant named by `config_string`,
raising iff the copy's return value is not the expected destination path.
The same destination path is returned in all cases. -/
theorem c4_config_reuse_iff_known_hash_and_identity :
    ∀ (hash : List Nat → String) (variantOf : String → List Nat)
      (copyRet baseDir config : String) (dst0 : Option (List Nat)),
      getConfig hash variantOf copyRet baseDir config dst0 =
        if (dst0.map (fun b => (hash b).toLower)).bind
            (fun hs => configHashTable.lookup hs) = some config
        then ⟨dst0, 0, false, baseDir ++ "/bsec-library.config"⟩
        else ⟨some (variantOf config), 1,
              copyRet ≠ baseDir ++ "/bsec-library.config",
              baseDir ++ "/bsec-library.config"⟩ := by
  intro hash variantOf copyRet baseDir config dst0
  rcases dst0 with _ | b
  · by_cases hr : copyRet = baseDir ++ "/bsec-library.config" <;>
      simp [getConfig, hr]
  · rcases hl : configHashTable.lookup ((hash b).toLower) with _ | s
    · by_cases hr : copyRet = baseDir ++ "/bsec-library.config" <;>
        simp [getConfig, hl, hr]
    · by_cases hc : s = config
      · simp [getConfig, hl, hc]
      · by_cases hr : copyRet = baseDir ++ "/bsec-library.config" <;>
          simp [getConfig, hl, hc, hr]

/-! ## State store — `BSECLibrary._get_state`, bseclib.py lines 303-312 -/

structure StateResult where
  /-- contents of `{base_dir}/bsec-library.state` after the call -/
  file : Option (List Nat)
  /-- the path returned (line 312) -/
  ret : String
  /-- whether any exception escaped (the `FileExistsError` is caught) -/
  raised : Bool
  deriving DecidableEq

/-- Lines 305-312: `open(state_dst, 'xb')` creates the file exclusively; if
it already exists the `FileExistsError` is caught and the file left alone;
the same path is returned either way. -/
def getState (baseDir : String) (st0 : Option (List Nat)) : StateResult :=
  let stateDst := baseDir ++ "/bsec-library.state"
  match st0 with
  | some b => ⟨some b, stateDst, false⟩
  | none => ⟨some [], stateDst, false⟩

/-- **C5** — `_get_state` never clobbers an existing state file: with no
file present it creates exactly one empty file, with a file present the
bytes are unchanged; no error is raised and the same state path is
returned in both cases. -/
theorem c5_state_file_never_clobbered :
    ∀ (baseDir : String) (st0 : Option (List Nat)),
      (getState baseDir st0).file = some (st0.getD []) ∧
      (getState baseDir st0).ret = baseDir ++ "/bsec-library.state" ∧
      (getState baseDir st0).raised = false := by
  intro baseDir st0
  rcases st0 with _ | b <;> simp [getState]

/-! ## Architecture resolution — `arch` inside `_get_exec`, bseclib.py lines 155-207

Python's `'arm' in machine` is substring containment; we implement it on
character lists. The board revision code is the integer the code computes
at line 173 from the `Revision` line of `/proc/cpuinfo` (`None` when that
file or line is absent). The CPython `is` comparisons of lines 182-190
behave as string equality because the interned literals are identical. -/

def infixOf (needle : List Char) : List Char → Bool
  | [] => needle.isEmpty
  | hay@(_ :: t) => needle.isPrefixOf hay || infixOf needle t

/-- `needle in hay` for Python strings. -/
def strContains (hay needle : String) : Bool :=
  infixOf needle.toList hay.toList

/-- `hay.startswith(needle)` for Python strings. -/
def strIsPrefixOf (needle hay : String) : Bool :=
  needle.toList.isPrefixOf hay.toList

inductive ArchError where
  /-- `BSECLibraryError` raised with a logged message -/
  | bsecLibraryError
  /-- uncaught `KeyError` from the chip-family dict lookup (line 175) -/
  | keyError
  deriving DecidableEq

instance {ε α : Type} [DecidableEq ε] [DecidableEq α] :
    DecidableEq (Except ε α) := fun x y =>
  match x, y with
  | .ok a, .ok b =>
      if h : a = b then .isTrue (h ▸ rfl)
      else .isFalse (fun hc => h (Except.ok.inj hc))
  | .error e, .error f =>
      if h : e = f then .isTrue (h ▸ rfl)
      else .isFalse (fun hc => h (Except.error.inj hc))
  | .ok _, .error _ => .isFalse (fun hc => Except.noConfusion hc)
  | .error _, .ok _ => .isFalse (fun hc => Except.noConfusion hc)

/-- Lines 174-177: decode the revision code. New-style codes (bit 23 set)
look the 4-bit chip-family field up in `{0: 'BCM2835', 1: 'BCM2836',
2: 'BCM2837'}` (a `KeyError` escapes for any other value); old-style codes
mean `BCM2835`. -/
def rpiProcessor (code : Nat) : Except ArchError String :=
  if (code >>> 23) % 2 = 1 then
    if (code >>> 12) % 16 = 0 then .ok "BCM2835"
    else if (code >>> 12) % 16 = 1 then .ok "BCM2836"
    else if (code >>> 12) % 16 = 2 then .ok "BCM2837"
    else .error .keyError
  else .ok "BCM2835"

def armv8_64 : String := "Normal_version/RaspberryPI/PiThree_ArmV8-a-64bits"
def armv6_32 : String := "Normal_version/RaspberryPI/PiZero_ArmV6-32bits"

/-- The `arch()` helper, lines 155-207: reject a non-Linux OS, reject a
machine string not containing `'arm'`; with a revision code, dispatch on
the decoded chip (note line 188: `BCM2836` returns the ArmV6 path); with
none, dispatch on `'armv8' in machine`. The final catch-all (lines
205-207) is unreachable. -/
def arch (system machine : String) (revCode : Option Nat) :
    Except ArchError String :=
  if system ≠ "Linux" then .error .bsecLibraryError
  else if !(strContains machine "arm") then .error .bsecLibraryError
  else
    match revCode with
    | some c =>
      match rpiProcessor c with
      | .error e => .error e
      | .ok p =>
        if p = "BCM2837" then .ok armv8_64
        else if p = "BCM2836" then .ok armv6_32
        else if p = "BCM2835" then .ok armv6_32
        else .error .bsecLibraryError
    | none =>
      if strContains machine "armv8" then .ok armv8_64
      else .ok armv6_32

/-- The three-variant codomain named by the claim. -/
inductive SpecVariant where
  | armv8_64bit
  | armv7_32bit
  | armv6_32bit
  deriving DecidableEq

/-- The claim's decision procedure, following the spec's words (section
4.1): non-Linux fatal; non-ARM fatal; a revision code decoding to a known
chip family picks the variant precisely (`BCM2837` is the ARMv8 chip,
`BCM2836` the ARMv7 chip, `BCM2835` the ARMv6 chip); else a *prefix* match
of `"armv8"` selects the 64-bit variant and any other ARM string a 32-bit
variant; nothing matching is a fatal unknown-architecture error. -/
def archSpecClaim (system machine : String) (revCode : Option Nat) :
    Except ArchError SpecVariant :=
  if system ≠ "Linux" then .error .bsecLibraryError
  else if !(strContains machine "arm") then .error .bsecLibraryError
  else
    match revCode with
    | some c =>
      match rpiProcessor c with
      | .ok "BCM2837" => .ok .armv8_64bit
      | .ok "BCM2836" => .ok .armv7_32bit
      | .ok "BCM2835" => .ok .armv6_32bit
      | _ => .error .bsecLibraryError
    | none =>
      if strIsPrefixOf "armv8" machine then .ok .armv8_64bit
      else .ok .armv6_32bit

/-- Which of the claim's three variants a returned library path denotes. -/
def variantOfPath (s : String) : Option SpecVariant :=
  if s = armv8_64 then some .armv8_64bit
  else if s = armv6_32 then some .armv6_32bit
  else none

/-- **C6 counterexample** — two concrete inputs refute the claim. A
revision code decoding to `BCM2836` (the ARMv7 chip; code `0x801000`) makes
`arch` return the ArmV6 32-bit library path, not an ARMv7 variant as the
claim's precise-pick requires — indeed no ARMv7 path is ever returned. And
for machine string `"aarmv8x"` with no revision code, `arch` selects the
64-bit variant by *substring* match although `"armv8"` is not a prefix, so
the claim's prefix rule picks a 32-bit variant. -/
theorem c6_counterexample_bcm2836_and_substring :
    arch "Linux" "armv7l" (some 8392704) = .ok armv6_32 ∧
    archSpecClaim "Linux" "armv7l" (some 8392704) = .ok SpecVariant.armv7_32bit ∧
    variantOfPath armv6_32 ≠ some SpecVariant.armv7_32bit ∧
    arch "Linux" "aarmv8x" none = .ok armv8_64 ∧
    strIsPrefixOf "armv8" "aarmv8x" = false ∧
    archSpecClaim "Linux" "aarmv8x" none = .ok SpecVariant.armv6_32bit ∧
    variantOfPath armv8_64 ≠ some SpecVariant.armv6_32bit := by
  decide

/-- Chip-family decoding as a flat partial map, for the amended decision
table: `some f` is a known family (`0`/`1` = 32-bit chips, `2` = the ARMv8
chip), `none` an unknown new-style family. -/
def newStyleFamily (code : Nat) : Option Nat :=
  if (code >>> 23) % 2 = 1 then
    if (code >>> 12) % 16 ≤ 2 then some ((code >>> 12) % 16) else none
  else some 0

/-- The amended claim's flat decision table over the *two* realizable
library paths. -/
def archTable (system machine : String) (revCode : Option Nat) :
    Except ArchError String :=
  if system = "Linux" then
    if strContains machine "arm" then
      match revCode with
      | some c =>
        match newStyleFamily c with
        | some 2 => .ok armv8_64
        | some _ => .ok armv6_32
        | none => .error .keyError
      | none =>
        if strContains machine "armv8" then .ok armv8_64 else .ok armv6_32
    else .error .bsecLibraryError
  else .error .bsecLibraryError

/-- `arch` only ever produces an error or one of the two library paths. -/
def archInRange : Except ArchError String → Bool
  | .ok s => s == armv8_64 || s == armv6_32
  | .error _ => true

/-- **C6 amended** — architecture resolution is a function into the
*two*-variant set {64-bit-ARMv8 path, 32-bit-ArmV6 path}: non-Linux OS
fatal; machine string without `'arm'` as a substring fatal; a revision
code decoding to the ARMv8 chip family picks the 64-bit path while both
32-bit chip families (ARMv7's `BCM2836` and ARMv6's `BCM2835`) pick the
ArmV6 path, an unknown new-style family raising an uncaught `KeyError`;
with no revision code, a *substring* match of `"armv8"` selects the 64-bit
path and any other ARM string the ArmV6 path; the unknown-architecture
catch-all is unreachable. -/
theorem c6_arch_two_variant_decision :
    ∀ (system machine : String) (revCode : Option Nat),
      arch system machine revCode = archTable system machine revCode ∧
      archInRange (arch system machine revCode) = true := by
  intro system machine rev
  have key : arch system machine rev = archTable system machine rev := by
    unfold arch archTable
    by_cases hs : system = "Linux"
    · by_cases hm : strContains machine "arm" = true
      · cases rev with
        | none =>
          by_cases h8 : strContains machine "armv8" = true <;>
            simp [hs, hm, h8]
        | some c =>
          unfold rpiProcessor newStyleFamily
          by_cases hb : (c >>> 23) % 2 = 1
          · by_cases h0 : (c >>> 12) % 16 = 0
            · simp [hs, hm, hb, h0]
            · by_cases h1 : (c >>> 12) % 16 = 1
              · simp [hs, hm, hb, h0, h1]
              · by_cases h2 : (c >>> 12) % 16 = 2
                · simp [hs, hm, hb, h0, h1, h2]
                · have hle : ¬((c >>> 12) % 16 ≤ 2) := by omega
                  simp [hs, hm, hb, h0, h1, h2, hle]
          · simp [hs, hm, hb]
      · simp [hs, hm]
    · simp [hs]
  refine ⟨key, ?_⟩
  rw [key]
  unfold archTable
  by_cases hs : system = "Linux"
  · by_cases hm : strContains machine "arm" = true
    · cases rev with
      | none =>
        by_cases h8 : strContains machine "armv8" = true <;>
          simp [hs, hm, h8, archInRange]
      | some c =>
        cases hnf : newStyleFamily c with
        | none => simp [hs, hm, hnf, archInRange]
        | some f =>
          rcases f with _ | (_ | (_ | n)) <;>
            simp [hs, hm, hnf, archInRange]
    · simp [hs, hm, archInRange]
  · simp [hs, archInRange]

/-! ## Identity string — `BSECLibrary.config_string`, bseclib.py lines 96-99 -/

/-- Decimal rendering of a one-decimal rational, agreeing with CPython's
`str()` on the two voltages that survive validation (`str(3.3) = '3.3'`,
`str(1.8) = '1.8'`), which are the only values the property is applied to. -/
def pyFloatStr (v : Rat) : String :=
  toString (v.num / v.den) ++ "." ++
    toString (v.num * 10 / v.den - v.num / v.den * 10)

/-- Python single-character indexing `s[i]`, as the one-character string it
yields (the legal voltages give length-3 strings, so no `IndexError` here). -/
def pyCharAt (s : String) (i : Nat) : String :=
  match s.toList.drop i with
  | [] => ""
  | c :: _ => String.mk [c]

/-- Line 99: `'generic_{}v_{}s_{}d'.format(str(voltage)[0]+str(voltage)[2],
str(sample_rate), str(retain_state))`. -/
def configString (voltage : Rat) (sampleRate retainState : Int) : String :=
  "generic_" ++ pyCharAt (pyFloatStr voltage) 0 ++ pyCharAt (pyFloatStr voltage) 2 ++
    "v_" ++ toString sampleRate ++ "s_" ++ toString retainState ++ "d"

/-- The "<voltage digits>" of the claim: the two digits of the voltage. -/
def voltageDigits (v : Rat) : String :=
  if v = 3.3 then "33" else "18"

/-- **C7** — For every validly constructed parameter set, `config_string`
is the pure function `generic_<voltage digits>v_<sample_rate>s_<retain_state>d`
of (voltage, sample_rate, retain_state); in particular (3.3, 300, 28) maps
to `generic_33v_300s_28d` and (1.8, 3, 4) to `generic_18v_3s_4d`. -/
theorem c7_config_string_deterministic :
    ∀ p : DeviceParams, validateParams p = true →
      configString p.voltage p.sample_rate p.retain_state =
        "generic_" ++ voltageDigits p.voltage ++ "v_" ++
          toString p.sample_rate ++ "s_" ++ toString p.retain_state ++ "d" ∧
      configString 3.3 300 28 = "generic_33v_300s_28d" ∧
      configString 1.8 3 4 = "generic_18v_3s_4d" := by
  intro p hv
  have h33 : (3.3 : Rat) = mkRat 33 10 := by rw [Rat.mkRat_eq_div]; norm_num
  have h18 : (1.8 : Rat) = mkRat 18 10 := by rw [Rat.mkRat_eq_div]; norm_num
  refine ⟨?_, by rw [h33]; rfl, by rw [h18]; rfl⟩
  have hvolt : p.voltage = (3.3 : Rat) ∨ p.voltage = (1.8 : Rat) := by
    simp [validateParams, i2cCheckFails, tempCheckFails, sampleRateCheckFails,
      voltageCheckFails, retainStateCheckFails] at hv
    tauto
  rcases hvolt with h | h <;> rw [h]
  · have d : voltageDigits (3.3 : Rat) = "33" := by simp [voltageDigits]
    rw [d, h33]
    have e0 : pyCharAt (pyFloatStr (mkRat 33 10)) 0 = "3" := rfl
    have e2 : pyCharAt (pyFloatStr (mkRat 33 10)) 2 = "3" := rfl
    simp [configString, e0, e2]
  · have d : voltageDigits (1.8 : Rat) = "18" := by norm_num [voltageDigits]
    rw [d, h18]
    have e0 : pyCharAt (pyFloatStr (mkRat 18 10)) 0 = "1" := rfl
    have e2 : pyCharAt (pyFloatStr (mkRat 18 10)) 2 = "8" := rfl
    simp [configString, e0, e2]

/-- Witness for C7 at the concrete legal parameter set (118, 0.0, 300, 3.3, 28). -/
theorem c7_config_string_deterministic_witness :
    configString (3.3 : Rat) 300 28 = "generic_33v_300s_28d" :=
  (c7_config_string_deterministic ⟨118, 0, 300, 3.3, 28⟩
    (by norm_num [validateParams, i2cCheckFails, tempCheckFails,
      sampleRateCheckFails, voltageCheckFails, retainStateCheckFails])).2.1

/-! ## Session lifecycle — `open`/`close`, bseclib.py lines 106-134

`self.proc` is `None` or a process handle (modelled by a spawn id). The
child's state just after `Popen` is modelled by `rcAfterSpawn`: the value
of `proc.returncode` at the line-120 check (`none` = still running). -/

structure OpenResult where
  proc : Option Nat
  /-- number of `subprocess.Popen` calls performed -/
  spawned : Nat
  /-- whether the "already running" warning of line 109 was logged -/
  warned : Bool
  /-- whether `BSECLibraryError` was raised (line 122) -/
  raised : Bool
  deriving DecidableEq

/-- Lines 107-124: warn and do nothing when a process handle exists, else
spawn once; raise (with `self.proc` already assigned) when the fresh child
has a `returncode` at the immediate check. Timezone resolution (lines
111-117) only sets the child's environment and is elided. -/
def openSession (rcAfterSpawn : Option Int) (newPid : Nat)
    (proc0 : Option Nat) : OpenResult :=
  match proc0 with
  | some p => ⟨some p, 0, true, false⟩
  | none =>
    if rcAfterSpawn ≠ none then ⟨some newPid, 1, false, true⟩
    else ⟨some newPid, 1, false, false⟩

structure CloseResult where
  proc : Option Nat
  /-- whether signal 15 was sent (line 131) -/
  signaled : Bool
  /-- whether the "not running" warning of line 129 was logged -/
  warned : Bool
  /-- whether any error was raised -/
  raised : Bool
  deriving DecidableEq

/-- Lines 127-134: warn and do nothing when no process handle exists, else
send SIGTERM, `sleep(1)`, and set `self.proc = None` unconditionally —
whether or not the child actually exited (`childExited`) is never consulted. -/
def closeSession (childExited : Bool) (proc0 : Option Nat) : CloseResult :=
  match proc0 with
  | none => ⟨none, false, true, false⟩
  | some _ => ⟨none, true, false, false⟩

/-- **C9** — the session state machine never double-starts or errors on a
redundant stop: two consecutive `open()` calls spawn exactly one child (the
second only warns and keeps the same handle); `close()` on a never-opened
session warns and raises nothing; `close()` on a running session always
ends with the session Stopped (`proc = None`) and no error, regardless of
whether the child actually exited. -/
theorem c9_session_state_machine :
    ∀ (pid1 pid2 : Nat) (rc2 : Option Int) (exited : Bool) (p : Nat),
      (let r1 := openSession none pid1 none
       let r2 := openSession rc2 pid2 r1.proc
       r1.spawned + r2.spawned = 1 ∧ r2.warned = true ∧
         r2.raised = false ∧ r2.proc = r1.proc) ∧
      (closeSession exited none).warned = true ∧
      (closeSession exited none).raised = false ∧
      (closeSession exited (some p)).proc = none ∧
      (closeSession exited (some p)).raised = false := by
  intro pid1 pid2 rc2 exited p
  simp [openSession, closeSession]

/-! ## base_dir handling — `__init__`, bseclib.py lines 70-86 -/

inductive InitFailure where
  /-- the library's own fatal error type -/
  | bsecLibraryError
  /-- an uncaught `AttributeError` from reading the unassigned `self.base_dir` -/
  | attributeError
  deriving DecidableEq

structure BaseDirResult where
  /-- `self.base_dir` after lines 70-75 (`none` = attribute never assigned) -/
  assigned : Option String
  /-- whether the line-75 "not a valid directory" error was logged -/
  errorLogged : Bool
  deriving DecidableEq

/-- Lines 70-75: `None` means the working directory; an existing directory
is taken (absolutized); anything else only logs an error — no raise, and
`self.base_dir` is never assigned. -/
def resolveBaseDir (cwd : String) (isDir : String → Bool)
    (abspath : String → String) (baseDir : Option String) : BaseDirResult :=
  match baseDir with
  | none => ⟨some cwd, false⟩
  | some d => if isDir d then ⟨some (abspath d), false⟩ else ⟨none, true⟩

/-- Lines 78-86: the source-directory scan reads `self.base_dir` (an
uncaught `AttributeError` when it was never assigned), filters the listing
for directories whose name contains `'BSEC_'`, and raises the library's
own error when none is found. -/
def scanSrcDirs (listdir : String → List String) (isDir : String → Bool)
    (r : BaseDirResult) : Except InitFailure (List String) :=
  match r.assigned with
  | none => .error .attributeError
  | some b =>
    let dirs := (listdir b).filter (fun i => isDir i && strContains i "BSEC_")
    if dirs = [] then .error .bsecLibraryError else .ok dirs

/-- **C10** — for every `base_dir` that is neither `None` nor an existing
directory, construction logs an error but raises nothing at the validation
point and never assigns `self.base_dir`, so the subsequent source-directory
scan fails with an attribute-access error, not the library's own fatal
error type. -/
theorem c10_invalid_base_dir_attribute_error :
    ∀ (cwd : String) (isDir : String → Bool) (abspath : String → String)
      (listdir : String → List String) (d : String),
      isDir d = false →
      resolveBaseDir cwd isDir abspath (some d) = ⟨none, true⟩ ∧
      scanSrcDirs listdir isDir (resolveBaseDir cwd isDir abspath (some d)) =
        .error .attributeError ∧
      (Except.error .attributeError :
          Except InitFailure (List String)) ≠ .error .bsecLibraryError := by
  intro cwd isDir abspath listdir d hd
  refine ⟨by simp [resolveBaseDir, hd], by simp [resolveBaseDir, scanSrcDirs, hd], by decide⟩

/-- Witness for C10 with a concrete filesystem in which no directory exists. -/
theorem c10_invalid_base_dir_attribute_error_witness :
    scanSrcDirs (fun _ => []) (fun _ => false)
      (resolveBaseDir "/" (fun _ => false) (fun s => s) (some "/nope")) =
      .error .attributeError :=
  (c10_invalid_base_dir_attribute_error "/" (fun _ => false) (fun s => s)
    (fun _ => []) "/nope" rfl).2.1

end BSECLib
